import Mathlib

/-!
Verification of the password-reset token lifecycle of the auth_service
repository (`accounts/utils.py` and the password-reset views of
`accounts/views.py`).

The Django cache backing the tokens is modelled as an association list of
`(key, value, deadline)` entries together with an explicit current time
`now : Nat` (in seconds).  `cache.set(key, value, timeout)` installs the
binding with absolute deadline `now + timeout`; `cache.get` returns the
value only while `now < deadline`, so a key whose deadline has passed is
observably absent exactly like a key that was never set; `cache.delete`
removes the binding.  Python truthiness of the value returned by
`cache.get` (`None` or a string) is modelled by `truthy`.
-/

/-- The cache state: a list of (key, value, absolute-deadline) entries.
At most one live entry per key is maintained by `cacheSet`. -/
abbrev Cache := List (String × String × Nat)

/-- `cache.set(key, value, timeout)` at absolute time `now + timeout = deadline`:
installs the binding, discarding any previous entry for the same key. -/
def cacheSet (c : Cache) (key value : String) (deadline : Nat) : Cache :=
  (key, value, deadline) :: c.filter (fun e => e.1 != key)

/-- Raw lookup of the first entry for `key`, ignoring expiry. -/
def cacheLookup : Cache → String → Option (String × Nat)
  | [], _ => none
  | e :: rest, key => if e.1 = key then some e.2 else cacheLookup rest key

/-- `cache.get(key)` at time `now`: returns the value while the deadline has
not passed, and `None` (here `none`) otherwise — an expired entry is
observably identical to a missing one. -/
def cacheGet (c : Cache) (key : String) (now : Nat) : Option String :=
  match cacheLookup c key with
  | some (v, dl) => if now < dl then some v else none
  | none => none

/-- `cache.delete(key)`: removes any entry for `key`. -/
def cacheDelete (c : Cache) (key : String) : Cache :=
  c.filter (fun e => e.1 != key)

/-- Python truthiness of `cache.get`'s result: `None` and the empty string
are falsy, every other string is truthy. -/
def truthy : Option String → Bool
  | none => false
  | some s => s != ""

/-! ### `accounts/utils.py` -/

/-- `string.ascii_letters`: lowercase then uppercase ASCII letters. -/
def ascii_letters : List Char :=
  "abcdefghijklmnopqrstuvwxyzABCDEFGHIJKLMNOPQRSTUVWXYZ".toList

/-- `string.digits`. -/
def ascii_digits : List Char := "0123456789".toList

/-- `alphabet = string.ascii_letters + string.digits` from
`generate_reset_token`. -/
def alphabet : List Char := ascii_letters ++ ascii_digits

/-- `secrets.choice(pool)`: returns one element of the (nonempty) pool; the
random draw is modelled by an arbitrary natural `r`, reduced into range. -/
def secretsChoice (pool : List Char) (r : Nat) : Char :=
  pool.getD (r % pool.length) 'A'

/-- The Python default of `generate_reset_token`'s `length` parameter. -/
def DEFAULT_TOKEN_LENGTH : Nat := 32

/-- The Python default of `store_reset_token`'s `expiry_minutes` parameter. -/
def DEFAULT_EXPIRY_MINUTES : Nat := 10

/-- `generate_reset_token(length)`: joins `length` draws of
`secrets.choice(alphabet)`.  The entropy source is modelled by
`rand : Nat → Nat`, giving the raw draw of each position. -/
def generate_reset_token (rand : Nat → Nat) (length : Nat) : String :=
  ⟨(List.range length).map (fun i => secretsChoice alphabet (rand i))⟩

/-- The cache key `f"password_reset:{token}"` used by both
`store_reset_token` and `verify_reset_token`. -/
def resetKey (token : String) : String := "password_reset:" ++ token

/-- `store_reset_token(email, token, expiry_minutes)`:
`cache.set(f"password_reset:{token}", email, timeout=expiry_minutes * 60)`
and return `True`.  State-passing: takes the cache and the current time,
returns the Python result together with the new cache. -/
def store_reset_token (c : Cache) (now : Nat) (email token : String)
    (expiry_minutes : Nat) : Bool × Cache :=
  (true, cacheSet c (resetKey token) email (now + expiry_minutes * 60))

/-- `verify_reset_token(token)`: `email = cache.get(key)`; if `email` is
truthy, `cache.delete(key)` and return the email, else return `None`.
The `get` and the `delete` are two separate cache calls in the source;
this function is their sequential (single-caller) composition — the
interleaved two-caller semantics is `redeemStep`/`runSchedule` below. -/
def verify_reset_token (c : Cache) (now : Nat) (token : String) :
    Option String × Cache :=
  let email := cacheGet c (resetKey token) now
  if truthy email then (email, cacheDelete c (resetKey token))
  else (none, c)

/-! ### Interleaved semantics of `verify_reset_token`

In the source, `verify_reset_token` issues TWO separate cache calls:
`cache.get(cache_key)` and then, in the truthy branch, `cache.delete(cache_key)`.
To reason about two concurrent callers redeeming the same token we make each
of those calls one atomic step of a small thread-state machine and interleave
the steps of the two threads under an explicit schedule. -/

/-- Control state of one caller running `verify_reset_token`:
before the `cache.get`, between the `get` and the `delete`, or returned. -/
inductive RedeemPhase where
  | start : RedeemPhase
  | gotValue : Option String → RedeemPhase
  | done : Option String → RedeemPhase
  deriving DecidableEq, Repr

/-- One atomic step of a caller running `verify_reset_token token` against
the shared cache: `start` performs the `cache.get`; `gotValue v` performs
the truthiness test and, when truthy, the `cache.delete`, then returns. -/
def redeemStep (c : Cache) (now : Nat) (token : String) :
    RedeemPhase → RedeemPhase × Cache
  | .start => (.gotValue (cacheGet c (resetKey token) now), c)
  | .gotValue v =>
      if truthy v then (.done v, cacheDelete c (resetKey token))
      else (.done none, c)
  | .done r => (.done r, c)

/-- Run two concurrent callers of `verify_reset_token token` under a
schedule: `true` steps the first thread, `false` the second. -/
def runSchedule (now : Nat) (token : String) :
    List Bool → Cache × RedeemPhase × RedeemPhase →
      Cache × RedeemPhase × RedeemPhase
  | [], s => s
  | tid :: rest, (c, p1, p2) =>
    if tid then
      runSchedule now token rest
        ((redeemStep c now token p1).2, (redeemStep c now token p1).1, p2)
    else
      runSchedule now token rest
        ((redeemStep c now token p2).2, p1, (redeemStep c now token p2).1)

/-! ### `accounts/views.py`: the password-reset views

An HTTP response is modelled by its status code and the single
message/error string of its JSON body.  The Django user table is modelled
as a list of `(email, password-hash)` pairs: `User.objects.get(email=...)`
is a lookup raising `User.DoesNotExist` on absence (here: `Option`), and
`user.set_password(...); user.save()` overwrites the stored hash. -/

/-- An HTTP response: status code and body message. -/
structure HttpResponse where
  status : Nat
  body : String
  deriving DecidableEq, Repr

/-- The user table: `(email, password hash)` rows, emails unique. -/
abbrev UserDb := List (String × String)

/-- `User.objects.get(email=email)`: the stored hash, or `none` for
`User.DoesNotExist`. -/
def dbGet : UserDb → String → Option String
  | [], _ => none
  | u :: rest, email => if u.1 = email then some u.2 else dbGet rest email

/-- `user.set_password(new_password); user.save()`: overwrite the hash of
the row with the given email. -/
def dbSetPassword (db : UserDb) (email pw : String) : UserDb :=
  db.map (fun u => if u.1 = email then (u.1, pw) else u)

/-- `ForgotPasswordView.post` after serializer validation succeeded with
`email`: generate a token, store it, then send the email; the notifier
outcome (`send_password_reset_email`'s boolean) is a function of the cache
state at the moment the notifier is invoked, so that the store-before-send
ordering is observable.  Returns the response and the final cache. -/
def forgotPasswordPost (c : Cache) (now : Nat) (email : String)
    (rand : Nat → Nat) (sendOk : Cache → Bool) : HttpResponse × Cache :=
  let token := generate_reset_token rand DEFAULT_TOKEN_LENGTH
  let c2 := (store_reset_token c now email token DEFAULT_EXPIRY_MINUTES).2
  if sendOk c2 then (⟨200, "Password reset email sent successfully"⟩, c2)
  else (⟨500, "Failed to send email. Please try again later."⟩, c2)

/-- `ResetPasswordView.post` after serializer validation succeeded with
`token` and `new_password`: verify (and consume) the token; on a falsy
email answer 400 "Invalid or expired token"; otherwise look the user up,
reset the password on success, and answer 400 "User not found" on
`User.DoesNotExist`.  Returns the response, the final cache and the final
user table. -/
def resetPasswordPost (c : Cache) (db : UserDb) (now : Nat)
    (token new_password : String) : HttpResponse × Cache × UserDb :=
  let r := verify_reset_token c now token
  match r.1 with
  | none => (⟨400, "Invalid or expired token"⟩, r.2, db)
  | some email =>
    match dbGet db email with
    | some _ =>
        (⟨200, "Password reset successfully"⟩, r.2,
          dbSetPassword db email new_password)
    | none => (⟨400, "User not found"⟩, r.2, db)

/-! ### Helper lemmas about the cache model -/

theorem cacheLookup_filter_ne (c : Cache) {k1 k2 : String} (h : k1 ≠ k2) :
    cacheLookup (c.filter (fun e => e.1 != k2)) k1 = cacheLookup c k1 := by
  induction c with
  | nil => rfl
  | cons e rest ih =>
    by_cases he : e.1 = k2
    · simp [List.filter_cons, he, cacheLookup, Ne.symm h, ih]
    · by_cases hk : e.1 = k1
      · simp [List.filter_cons, he, cacheLookup, hk, h]
      · simp [List.filter_cons, he, cacheLookup, hk, ih]

theorem cacheLookup_cacheSet_self (c : Cache) (k v : String) (dl : Nat) :
    cacheLookup (cacheSet c k v dl) k = some (v, dl) := by
  simp [cacheSet, cacheLookup]

theorem cacheLookup_cacheSet_ne (c : Cache) {k1 k2 : String} (v : String)
    (dl : Nat) (h : k1 ≠ k2) :
    cacheLookup (cacheSet c k2 v dl) k1 = cacheLookup c k1 := by
  simp only [cacheSet, cacheLookup, Ne.symm h, if_false]
  exact cacheLookup_filter_ne c h

theorem cacheLookup_cacheDelete_self (c : Cache) (k : String) :
    cacheLookup (cacheDelete c k) k = none := by
  induction c with
  | nil => rfl
  | cons e rest ih =>
    by_cases he : e.1 = k
    · simpa [cacheDelete, List.filter_cons, he] using ih
    · simpa [cacheDelete, List.filter_cons, he, cacheLookup] using ih

theorem cacheGet_cacheSet_self (c : Cache) (k v : String) (dl now : Nat) :
    cacheGet (cacheSet c k v dl) k now = if now < dl then some v else none := by
  simp [cacheGet, cacheLookup_cacheSet_self]

theorem cacheGet_cacheDelete_self (c : Cache) (k : String) (now : Nat) :
    cacheGet (cacheDelete c k) k now = none := by
  simp [cacheGet, cacheLookup_cacheDelete_self]

theorem cacheGet_not_bound (c : Cache) (k : String) (now : Nat)
    (h : ∀ e ∈ c, e.1 ≠ k) : cacheGet c k now = none := by
  have : cacheLookup c k = none := by
    induction c with
    | nil => rfl
    | cons e rest ih =>
      have he : e.1 ≠ k := h e (List.mem_cons_self e rest)
      simp only [cacheLookup, he, if_false]
      exact ih (fun x hx => h x (List.mem_cons_of_mem e hx))
  simp [cacheGet, this]

theorem resetKey_injective {t1 t2 : String} (h : resetKey t1 = resetKey t2) :
    t1 = t2 := by
  have hd := congrArg String.data h
  simp only [resetKey, String.data_append] at hd
  exact String.ext (List.append_cancel_left hd)

theorem secretsChoice_mem (pool : List Char) (r : Nat) (h : pool ≠ []) :
    secretsChoice pool r ∈ pool := by
  have hlen : 0 < pool.length := List.length_pos.mpr h
  have hlt : r % pool.length < pool.length := Nat.mod_lt _ hlen
  rw [secretsChoice, List.getD_eq_getElem _ _ hlt]
  exact List.getElem_mem hlt

/-! ### The claims -/

/-- C1: the claim states that the lookup and deletion performed by
`verify_reset_token` are indivisible with respect to a concurrent redeem of
the same token, so that exactly one of two concurrent redeemers obtains the
bound identifier.  The code performs `cache.get` and `cache.delete` as two
separate cache calls, so the schedule get₁, get₂, delete₁, delete₂ makes
BOTH concurrent redeemers of the live token `"t"` (bound to `"a@x"`) finish
with `some "a@x"` — the single-caller run (second conjunct) shows `"a@x"`
is indeed what a successful redemption returns. -/
theorem concurrent_redeem_both_succeed :
    runSchedule 0 "t" [true, false, true, false]
      ([("password_reset:t", "a@x", 100)], RedeemPhase.start, RedeemPhase.start)
      = ([], RedeemPhase.done (some "a@x"), RedeemPhase.done (some "a@x"))
    ∧ (verify_reset_token [("password_reset:t", "a@x", 100)] 0 "t").1
        = some "a@x" :=
  ⟨rfl, rfl⟩

/-- C2 counterexample: when the redeemed identifier resolves to no account,
`ResetPasswordView.post` answers `400 "User not found"`, while an invalid
token yields `400 "Invalid or expired token"` — the two responses differ,
so the caller CAN distinguish the two cases, refuting the claim that they
are surfaced identically. -/
theorem reset_password_errors_distinguishable :
    (resetPasswordPost [("password_reset:t", "ghost@x", 100)] [] 0 "t" "np").1
      = ⟨400, "User not found"⟩
    ∧ (resetPasswordPost [] [] 0 "t" "np").1
      = ⟨400, "Invalid or expired token"⟩
    ∧ (⟨400, "User not found"⟩ : HttpResponse)
      ≠ (⟨400, "Invalid or expired token"⟩ : HttpResponse) :=
  ⟨rfl, rfl, by decide⟩

/-- C2 (amended): whenever redemption returns an identifier that no longer
resolves to an account, `ResetPasswordView.post` answers with the same 400
status code as the invalid-token case, but with the distinct body
`"User not found"` instead of `"Invalid or expired token"`, so the caller
can distinguish the two cases by the response body. -/
theorem reset_password_account_not_found (c : Cache) (db : UserDb)
    (now : Nat) (token npw email : String)
    (hv : (verify_reset_token c now token).1 = some email)
    (habs : dbGet db email = none) :
    (resetPasswordPost c db now token npw).1 = ⟨400, "User not found"⟩
    ∧ (resetPasswordPost c db now token npw).1.status = 400
    ∧ (resetPasswordPost c db now token npw).1.body
        ≠ "Invalid or expired token" := by
  have h1 : (resetPasswordPost c db now token npw).1
      = ⟨400, "User not found"⟩ := by
    simp [resetPasswordPost, hv, habs]
  exact ⟨h1, by rw [h1], by rw [h1]; decide⟩

theorem reset_password_account_not_found_witness :
    ((verify_reset_token [("password_reset:t", "ghost@x", 100)] 0 "t").1
        = some "ghost@x"
      ∧ dbGet [] "ghost@x" = none)
    ∧ ((resetPasswordPost [("password_reset:t", "ghost@x", 100)] [] 0 "t"
          "np").1 = ⟨400, "User not found"⟩
      ∧ (resetPasswordPost [("password_reset:t", "ghost@x", 100)] [] 0 "t"
          "np").1.status = 400
      ∧ (resetPasswordPost [("password_reset:t", "ghost@x", 100)] [] 0 "t"
          "np").1.body ≠ "Invalid or expired token") :=
  ⟨⟨rfl, rfl⟩,
    reset_password_account_not_found [("password_reset:t", "ghost@x", 100)]
      [] 0 "t" "np" "ghost@x" rfl rfl⟩

/-- C3 counterexample: the claim quantifies over every account identifier,
but for the empty identifier `""` the stored value is falsy, so an
immediate redeem (well before the 10-minute TTL) returns `None` rather
than the bound identifier. -/
theorem issue_then_redeem_empty_id_cex :
    (verify_reset_token (store_reset_token [] 0 "" "tok" 10).2 0 "tok").1
      = none
    ∧ (verify_reset_token (store_reset_token [] 0 "" "tok" 10).2 0 "tok").1
      ≠ some "" :=
  ⟨rfl, by decide⟩

/-- C3 (amended): for every NONEMPTY account identifier and every token,
redeeming the token at any time before the TTL deadline returns the bound
identifier. -/
theorem issue_then_redeem_returns_id (c : Cache) (now t m : Nat)
    (email token : String) (hne : email ≠ "") (hlive : t < now + m * 60) :
    (verify_reset_token (store_reset_token c now email token m).2 t token).1
      = some email := by
  have hget : cacheGet (store_reset_token c now email token m).2
      (resetKey token) t = some email := by
    simp [store_reset_token, cacheGet_cacheSet_self, hlive]
  simp [verify_reset_token, hget, truthy, hne]

theorem issue_then_redeem_returns_id_witness :
    ("a@x.com" ≠ "" ∧ (5 : Nat) < 0 + 10 * 60)
    ∧ (verify_reset_token (store_reset_token [] 0 "a@x.com" "tok" 10).2 5
        "tok").1 = some "a@x.com" :=
  ⟨⟨by decide, by decide⟩,
    issue_then_redeem_returns_id [] 0 5 10 "a@x.com" "tok" (by decide)
      (by decide)⟩

/-- C4: a successful redeem removes the entry (the key is absent at every
later time), and a second redeem of the same token returns `None`. -/
theorem redeem_at_most_once (c : Cache) (now now2 now3 : Nat)
    (token email : String)
    (h : (verify_reset_token c now token).1 = some email) :
    cacheGet (verify_reset_token c now token).2 (resetKey token) now2 = none
    ∧ (verify_reset_token (verify_reset_token c now token).2 now3 token).1
      = none := by
  by_cases ht : truthy (cacheGet c (resetKey token) now)
  · have hstate : (verify_reset_token c now token).2
        = cacheDelete c (resetKey token) := by
      simp [verify_reset_token, ht]
    rw [hstate]
    refine ⟨cacheGet_cacheDelete_self c (resetKey token) now2, ?_⟩
    simp [verify_reset_token, cacheGet_cacheDelete_self, truthy]
  · exfalso
    simp [verify_reset_token, ht] at h

theorem redeem_at_most_once_witness :
    (verify_reset_token [("password_reset:t", "a@x", 100)] 0 "t").1
      = some "a@x"
    ∧ (cacheGet (verify_reset_token [("password_reset:t", "a@x", 100)] 0
          "t").2 (resetKey "t") 1 = none
      ∧ (verify_reset_token
          (verify_reset_token [("password_reset:t", "a@x", 100)] 0 "t").2 2
          "t").1 = none) :=
  ⟨rfl,
    redeem_at_most_once [("password_reset:t", "a@x", 100)] 0 1 2 "t" "a@x"
      rfl⟩

/-- C5: a token whose TTL deadline has passed redeems to `None`, exactly as
a token that was never issued does: both lookups report absent. -/
theorem redeem_expired_absent (c c2 : Cache) (now t m n2 : Nat)
    (email token token2 : String)
    (hexp : now + m * 60 ≤ t)
    (hnever : ∀ e ∈ c2, e.1 ≠ resetKey token2) :
    (verify_reset_token (store_reset_token c now email token m).2 t token).1
      = none
    ∧ (verify_reset_token c2 n2 token2).1 = none := by
  constructor
  · have hget : cacheGet (store_reset_token c now email token m).2
        (resetKey token) t = none := by
      simp [store_reset_token, cacheGet_cacheSet_self, Nat.not_lt.mpr hexp]
    simp [verify_reset_token, hget, truthy]
  · have hget := cacheGet_not_bound c2 (resetKey token2) n2 hnever
    simp [verify_reset_token, hget, truthy]

theorem redeem_expired_absent_witness :
    ((0 : Nat) + 1 * 60 ≤ 60
      ∧ (∀ e ∈ ([] : Cache), e.1 ≠ resetKey "never-issued-value"))
    ∧ ((verify_reset_token (store_reset_token [] 0 "b@x" "t2" 1).2 60
          "t2").1 = none
      ∧ (verify_reset_token [] 0 "never-issued-value").1 = none) :=
  ⟨⟨by decide, by intro e he; cases he⟩,
    redeem_expired_absent [] [] 0 60 1 0 "b@x" "t2" "never-issued-value"
      (by decide) (by intro e he; cases he)⟩

/-- C6: for every requested length L ≥ 1 and every entropy stream,
`generate_reset_token` returns a string of exactly L characters, each an
element of the 62-symbol alphanumeric alphabet {A–Z, a–z, 0–9}; the Python
default of the length parameter is 32. -/
theorem generate_reset_token_spec (rand : Nat → Nat) (L : Nat)
    (_hL : 1 ≤ L) :
    (generate_reset_token rand L).length = L
    ∧ (∀ ch ∈ (generate_reset_token rand L).data, ch ∈ alphabet)
    ∧ alphabet.length = 62
    ∧ (∀ ch ∈ alphabet, ch.isAlphanum = true)
    ∧ DEFAULT_TOKEN_LENGTH = 32 := by
  refine ⟨?_, ?_, by decide, by decide, rfl⟩
  · simp [generate_reset_token, String.length]
  · intro ch hch
    simp only [generate_reset_token, List.mem_map] at hch
    obtain ⟨i, _, hi⟩ := hch
    exact hi ▸ secretsChoice_mem alphabet (rand i) (by decide)

theorem generate_reset_token_spec_witness :
    (1 : Nat) ≤ 32
    ∧ ((generate_reset_token (fun i => i) 32).length = 32
      ∧ (∀ ch ∈ (generate_reset_token (fun i => i) 32).data, ch ∈ alphabet)
      ∧ alphabet.length = 62
      ∧ (∀ ch ∈ alphabet, ch.isAlphanum = true)
      ∧ DEFAULT_TOKEN_LENGTH = 32) :=
  ⟨by decide, generate_reset_token_spec (fun i => i) 32 (by decide)⟩

/-- C7: `store_reset_token` returns `True` and installs the binding under
the key `"password_reset:" ++ token`, live exactly until
`now + expiry_minutes * 60` seconds; the Python default of
`expiry_minutes` is 10 (i.e. a 10-minute TTL). -/
theorem store_reset_token_spec (c : Cache) (now m t : Nat)
    (email token : String) :
    (store_reset_token c now email token m).1 = true
    ∧ cacheGet (store_reset_token c now email token m).2
        ("password_reset:" ++ token) t
      = (if t < now + m * 60 then some email else none)
    ∧ DEFAULT_EXPIRY_MINUTES = 10 := by
  refine ⟨rfl, ?_, rfl⟩
  simpa [store_reset_token, resetKey] using
    cacheGet_cacheSet_self c (resetKey token) email (now + m * 60) t

/-- C8: issuing a token `t2` different from `t1` leaves the cache entry for
`t1` untouched: its lookup result and its redemption result are the same,
at every time, as before the new issuance. -/
theorem issue_preserves_other_token (c : Cache) (now m t : Nat)
    (id2 t1 t2 : String) (h : t2 ≠ t1) :
    cacheGet (store_reset_token c now id2 t2 m).2 (resetKey t1) t
      = cacheGet c (resetKey t1) t
    ∧ (verify_reset_token (store_reset_token c now id2 t2 m).2 t t1).1
      = (verify_reset_token c t t1).1 := by
  have hk : resetKey t1 ≠ resetKey t2 :=
    fun he => h (resetKey_injective he).symm
  have hlook : cacheLookup (store_reset_token c now id2 t2 m).2 (resetKey t1)
      = cacheLookup c (resetKey t1) := by
    simpa [store_reset_token] using
      cacheLookup_cacheSet_ne c id2 (now + m * 60) hk
  have hget : cacheGet (store_reset_token c now id2 t2 m).2 (resetKey t1) t
      = cacheGet c (resetKey t1) t := by
    simp [cacheGet, hlook]
  refine ⟨hget, ?_⟩
  by_cases htr : truthy (cacheGet c (resetKey t1) t)
  · simp [verify_reset_token, hget, htr]
  · simp [verify_reset_token, hget, htr]

theorem issue_preserves_other_token_witness :
    "t2" ≠ "t1"
    ∧ (cacheGet (store_reset_token [("password_reset:t1", "a@x", 600)] 0
          "b@x" "t2" 10).2 (resetKey "t1") 5
        = cacheGet [("password_reset:t1", "a@x", 600)] (resetKey "t1") 5
      ∧ (verify_reset_token (store_reset_token
            [("password_reset:t1", "a@x", 600)] 0 "b@x" "t2" 10).2 5 "t1").1
        = (verify_reset_token [("password_reset:t1", "a@x", 600)] 5 "t1").1) :=
  ⟨by decide,
    issue_preserves_other_token [("password_reset:t1", "a@x", 600)] 0 10 5
      "b@x" "t1" "t2" (by decide)⟩

/-- C9: in `ForgotPasswordView.post` the token is stored before the
notifier runs — the cache the notifier observes already holds the binding
(first conjunct states the binding is live in the cache passed to
`sendOk`) — and the final cache state is the same whatever the notifier
returns, so an email failure neither removes nor invalidates the stored
token, which stays live for the full default 10-minute TTL. -/
theorem forgot_password_token_live (c : Cache) (now t : Nat)
    (email : String) (rand : Nat → Nat) (sendOk : Cache → Bool) :
    cacheGet (store_reset_token c now email
        (generate_reset_token rand DEFAULT_TOKEN_LENGTH)
        DEFAULT_EXPIRY_MINUTES).2
        (resetKey (generate_reset_token rand DEFAULT_TOKEN_LENGTH)) t
      = (if t < now + 600 then some email else none)
    ∧ cacheGet (forgotPasswordPost c now email rand sendOk).2
        (resetKey (generate_reset_token rand DEFAULT_TOKEN_LENGTH)) t
      = (if t < now + 600 then some email else none)
    ∧ (forgotPasswordPost c now email rand sendOk).2
      = (forgotPasswordPost c now email rand (fun s => !(sendOk s))).2 := by
  have hstate : ∀ f : Cache → Bool, (forgotPasswordPost c now email rand f).2
      = (store_reset_token c now email
          (generate_reset_token rand DEFAULT_TOKEN_LENGTH)
          DEFAULT_EXPIRY_MINUTES).2 := by
    intro f
    by_cases hf : f (store_reset_token c now email
        (generate_reset_token rand DEFAULT_TOKEN_LENGTH)
        DEFAULT_EXPIRY_MINUTES).2
    · simp [forgotPasswordPost, hf]
    · simp [forgotPasswordPost, hf]
  have hget : cacheGet (store_reset_token c now email
      (generate_reset_token rand DEFAULT_TOKEN_LENGTH)
      DEFAULT_EXPIRY_MINUTES).2
      (resetKey (generate_reset_token rand DEFAULT_TOKEN_LENGTH)) t
      = (if t < now + 600 then some email else none) := by
    simpa [store_reset_token, DEFAULT_EXPIRY_MINUTES] using
      cacheGet_cacheSet_self c
        (resetKey (generate_reset_token rand DEFAULT_TOKEN_LENGTH)) email
        (now + 600) t
  refine ⟨hget, ?_, ?_⟩
  · rw [hstate sendOk]; exact hget
  · rw [hstate sendOk, hstate (fun s => !(sendOk s))]

/-- C10: a falsy cached value (for example the empty string) makes
`verify_reset_token` return `None` WITHOUT deleting the entry, and, in
general, whenever `verify_reset_token` returns `None` the cache is left
exactly as it was. -/
theorem verify_absent_state_unchanged (c : Cache) (now : Nat)
    (token : String) :
    (cacheGet c (resetKey token) now = some "" →
      verify_reset_token c now token = (none, c))
    ∧ ((verify_reset_token c now token).1 = none →
      (verify_reset_token c now token).2 = c) := by
  constructor
  · intro h
    simp [verify_reset_token, h, truthy]
  · intro h
    by_cases ht : truthy (cacheGet c (resetKey token) now)
    · exfalso
      simp only [verify_reset_token, ht, if_true] at h
      rw [h] at ht
      simp [truthy] at ht
    · simp [verify_reset_token, ht]

theorem verify_absent_state_unchanged_witness :
    (cacheGet [("password_reset:t", "", 50)] (resetKey "t") 0 = some ""
      ∧ verify_reset_token [("password_reset:t", "", 50)] 0 "t"
        = (none, [("password_reset:t", "", 50)]))
    ∧ ((verify_reset_token [("password_reset:t", "", 50)] 0 "t").1 = none
      → (verify_reset_token [("password_reset:t", "", 50)] 0 "t").2
        = [("password_reset:t", "", 50)]) :=
  ⟨⟨rfl,
    (verify_absent_state_unchanged [("password_reset:t", "", 50)] 0 "t").1
      rfl⟩,
    (verify_absent_state_unchanged [("password_reset:t", "", 50)] 0 "t").2⟩

